import Mathlib

/-!
Shallow embedding of `grader.py` (class `AutoGrader` and the module-level
helpers around it).

The grader receives a learner-submitted Python value of unconstrained shape
and an instructor-authored answer descriptor (a JSON object), dispatches on
the descriptor's `type` tag and produces a verdict.  Python values are
modelled by the mutually inductive type `PyVal`; Python exceptions are
modelled by `Except String`; a submitted callable is modelled by an index
into an explicit environment `PyEnv` so that invoking it stays a pure
operation of the model.  Machine floats are modelled by rationals.
-/

mutual

/-- A Python runtime value, as far as `grader.py` can observe it:
`None`, numbers (`int`/`float`, modelled by `ℚ`), strings, lists, dicts
with string keys, pandas `Series` (a value list plus a dtype label),
pandas `DataFrame` (carried as its `to_dict()` image), numpy arrays
(a shape plus the `tolist()` image), and callables (an index into a
`PyEnv`). -/
inductive PyVal : Type where
  | none : PyVal
  | num (q : ℚ) : PyVal
  | str (s : String) : PyVal
  | list (xs : PyList) : PyVal
  | dict (entries : PyDict) : PyVal
  | series (values : PyList) (dtype : String) : PyVal
  | frame (cols : PyDict) : PyVal
  | arr (shape : List Nat) (flat : PyVal) : PyVal
  | func (id : Nat) : PyVal

/-- A Python list of `PyVal`s (kept as a separate mutual inductive so that
all comparison functions are structurally recursive and kernel-reducible). -/
inductive PyList : Type where
  | nil : PyList
  | cons (hd : PyVal) (tl : PyList) : PyList

/-- A Python dict with string keys. -/
inductive PyDict : Type where
  | nil : PyDict
  | cons (key : String) (val : PyVal) (tl : PyDict) : PyDict

end

def PyList.ofList : List PyVal → PyList
  | [] => .nil
  | x :: xs => .cons x (PyList.ofList xs)

def PyList.toList : PyList → List PyVal
  | .nil => []
  | .cons x xs => x :: PyList.toList xs

def PyList.length : PyList → Nat
  | .nil => 0
  | .cons _ xs => PyList.length xs + 1

def PyDict.length : PyDict → Nat
  | .nil => 0
  | .cons _ _ xs => PyDict.length xs + 1

def PyDict.lookup : PyDict → String → Option PyVal
  | .nil, _ => Option.none
  | .cons k v xs, key => if k = key then some v else PyDict.lookup xs key

def PyDict.keys : PyDict → List String
  | .nil => []
  | .cons k _ xs => k :: PyDict.keys xs

@[simp] theorem PyList.toList_ofList (l : List PyVal) :
    (PyList.ofList l).toList = l := by
  induction l with
  | nil => rfl
  | cons x xs ih => simp [PyList.ofList, PyList.toList, ih]

/-- The Python type name used in runtime error messages. -/
def pyTypeName : PyVal → String
  | .none => "NoneType"
  | .num _ => "number"
  | .str _ => "str"
  | .list _ => "list"
  | .dict _ => "dict"
  | .series _ _ => "Series"
  | .frame _ => "DataFrame"
  | .arr _ _ => "ndarray"
  | .func _ => "function"

mutual

/-- Python `==` between two values as used by the grader in a boolean
position (`match = a == b` followed by branching on `match`).  A comparison
whose Python result is a non-boolean elementwise object (`Series`,
`DataFrame`, `ndarray`) raises at the branch, which the model folds into an
`Except.error`.  Values of unrelated plain types compare unequal without
raising, as in Python. -/
def pyEqE : PyVal → PyVal → Except String Bool
  | .none, .none => .ok true
  | .num a, .num b => .ok (a == b)
  | .str a, .str b => .ok (a == b)
  | .func i, .func j => .ok (i == j)
  | .series _ _, _ => .error "The truth value of a Series is ambiguous"
  | _, .series _ _ => .error "The truth value of a Series is ambiguous"
  | .frame _, _ => .error "The truth value of a DataFrame is ambiguous"
  | _, .frame _ => .error "The truth value of a DataFrame is ambiguous"
  | .arr _ _, _ => .error "The truth value of an array is ambiguous"
  | _, .arr _ _ => .error "The truth value of an array is ambiguous"
  | .list a, .list b =>
    if PyList.length a = PyList.length b then pyEqListE a b else .ok false
  | .dict a, .dict b =>
    if PyDict.length a = PyDict.length b then pyEqEntriesE a b else .ok false
  | _, _ => .ok false

/-- Elementwise Python list equality (short-circuits at the first unequal
element, so a raising comparison after an unequal element is not reached). -/
def pyEqListE : PyList → PyList → Except String Bool
  | .nil, .nil => .ok true
  | .cons x xs, .cons y ys =>
    match pyEqE x y with
    | .error e => .error e
    | .ok true => pyEqListE xs ys
    | .ok false => .ok false
  | _, _ => .ok false

/-- Python dict equality restricted to equal sizes: every binding of the
first dict must be present with an equal value in the second. -/
def pyEqEntriesE : PyDict → PyDict → Except String Bool
  | .nil, _ => .ok true
  | .cons k v rest, b =>
    match PyDict.lookup b k with
    | Option.none => .ok false
    | some w =>
      match pyEqE v w with
      | .error e => .error e
      | .ok true => pyEqEntriesE rest b
      | .ok false => .ok false

end

mutual

/-- Python `<` as invoked by `sorted` in the list comparator: defined on
number pairs, string pairs and list pairs (lexicographically); every other
pairing raises `TypeError`, which the model returns as an error. -/
def pyLt : PyVal → PyVal → Except String Bool
  | .num a, .num b => .ok (decide (a < b))
  | .str a, .str b => .ok (decide (a < b))
  | .list a, .list b => pyLtListE a b
  | x, y =>
    .error ("'<' not supported between instances of '" ++ pyTypeName x ++
      "' and '" ++ pyTypeName y ++ "'")

/-- Lexicographic Python `<` on lists. -/
def pyLtListE : PyList → PyList → Except String Bool
  | .nil, .nil => .ok false
  | .nil, .cons _ _ => .ok true
  | .cons _ _, .nil => .ok false
  | .cons x xs, .cons y ys =>
    match pyEqE x y with
    | .error e => .error e
    | .ok true => pyLtListE xs ys
    | .ok false => pyLt x y

end

/-- The behaviour of the callables a submission may contain: maps the
callable's index and its positional arguments to a result or a raised
exception. -/
def PyEnv : Type := Nat → List PyVal → Except String PyVal

/-- Invoking a submitted value with positional arguments
(`student_answer(*input_args)` / `student_answer(input_args)` in
`_compare_answers`); a non-callable raises `TypeError`. -/
def pyCall (env : PyEnv) : PyVal → List PyVal → Except String PyVal
  | .func i, args => env i args
  | v, _ => .error ("'" ++ pyTypeName v ++ "' object is not callable")

/-- `expected.get(key, dflt)` in the `code_pattern` comparator: a
non-dict receiver raises `AttributeError`. -/
def pyGetD (v : PyVal) (key : String) (dflt : PyVal) : Except String PyVal :=
  match v with
  | .dict es => .ok ((PyDict.lookup es key).getD dflt)
  | _ => .error ("'" ++ pyTypeName v ++ "' object has no attribute 'get'")

/-- `expected[key]` in the `series_dtype` comparator: a missing key raises
`KeyError`, a non-dict receiver raises `TypeError`. -/
def pyIndexE (v : PyVal) (key : String) : Except String PyVal :=
  match v with
  | .dict es =>
    match PyDict.lookup es key with
    | some w => .ok w
    | Option.none => .error ("KeyError: " ++ key)
  | _ => .error ("'" ++ pyTypeName v ++ "' object is not subscriptable")

/-- Python iteration over a value (`for pattern in ...`, `tuple(...)`):
lists yield their elements, strings their characters, dicts their keys;
everything else raises `TypeError`. -/
def pyIterE : PyVal → Except String (List PyVal)
  | .list xs => .ok xs.toList
  | .str s => .ok (s.data.map fun c => .str (String.mk [c]))
  | .dict es => .ok ((PyDict.keys es).map .str)
  | v => .error ("'" ++ pyTypeName v ++ "' object is not iterable")

/-- `pat in hay` on strings: substring occurrence. -/
def strContains (hay pat : String) : Bool :=
  hay.data.tails.any fun t => pat.data.isPrefixOf t

/-- `pattern in student_answer` where `student_answer` is a string: the
pattern must itself be a string, otherwise `TypeError`. -/
def pyInStrE (hay : String) (p : PyVal) : Except String Bool :=
  match p with
  | .str ps => .ok (strContains hay ps)
  | v => .error ("'in <string>' requires string as left operand, not " ++
      pyTypeName v)

/-- The filtering loops of the `code_pattern` comparator, with a fallible
predicate (a raised membership test aborts the loop). -/
def filterME (p : PyVal → Except String Bool) : List PyVal → Except String (List PyVal)
  | [] => .ok []
  | x :: xs =>
    match p x with
    | .error e => .error e
    | .ok b =>
      match filterME p xs with
      | .error e => .error e
      | .ok r => .ok (if b then x :: r else r)

/-- `', '.join(patterns)`: every element must be a string. -/
def collectStrsE : List PyVal → Except String (List String)
  | [] => .ok []
  | .str s :: xs =>
    match collectStrsE xs with
    | .error e => .error e
    | .ok r => .ok (s :: r)
  | v :: _ =>
    .error ("sequence item: expected str instance, " ++ pyTypeName v ++ " found")

/-- Insertion step of the model of Python `sorted` (insert into an already
sorted list using Python `<`; a raising comparison aborts the sort). -/
def insertE (x : PyVal) : List PyVal → Except String (List PyVal)
  | [] => .ok [x]
  | y :: ys =>
    match pyLt x y with
    | .error e => .error e
    | .ok true => .ok (x :: y :: ys)
    | .ok false =>
      match insertE x ys with
      | .error e => .error e
      | .ok r => .ok (y :: r)

/-- Model of Python `sorted` (as an insertion sort over Python `<`): returns
the sorted copy, or the `TypeError` raised on mutually unorderable
elements. -/
def sortedE : List PyVal → Except String (List PyVal)
  | [] => .ok []
  | x :: xs =>
    match sortedE xs with
    | .error e => .error e
    | .ok r => insertE x r

/-- Elementwise Python `==` between two plain lists (used on the two sorted
copies in the list comparator). -/
def pyEqLE (a b : List PyVal) : Except String Bool :=
  if a.length = b.length then pyEqLEAux a b else .ok false
where
  pyEqLEAux : List PyVal → List PyVal → Except String Bool
    | [], _ => .ok true
    | _ :: _, [] => .ok false
    | x :: xs, y :: ys =>
      match pyEqE x y with
      | .error e => .error e
      | .ok true => pyEqLEAux xs ys
      | .ok false => .ok false

/-- Left-zero-padding to four digits, for the fractional part of the
`{diff:.4f}` interpolation. -/
def pad4 (k : Nat) : String :=
  let t := toString k
  String.mk (List.replicate (4 - t.length) '0') ++ t

/-- The `{diff:.4f}` interpolation of the numeric comparator, on the
rational model of floats: round to four decimal places and render. -/
def fmt4 (q : ℚ) : String :=
  let n : ℤ := round (q * 10000)
  let sgn := if n < 0 then "-" else ""
  let m := n.natAbs
  sgn ++ toString (m / 10000) ++ "." ++ pad4 (m % 10000)

/-- Rendering of a value inside an f-string (`{expected_dtype}`); the
grader only ever interpolates plain data here, so the rendering of the
exotic constructors is coarse. -/
def pyStr : PyVal → String
  | .str s => s
  | .num q => if q.den = 1 then toString q.num else toString q
  | .none => "None"
  | v => "<" ++ pyTypeName v ++ ">"

/-- Rendering of a shape tuple (`{student_answer.shape}`). -/
def tupleStr (ns : List Nat) : String :=
  if ns.length = 1 then "(" ++ String.intercalate ", " (ns.map toString) ++ ",)"
  else "(" ++ String.intercalate ", " (ns.map toString) ++ ")"

/-- Rendering of `tuple(expected)` (`{expected_shape}`). -/
def pyTupleStr (xs : List PyVal) : String :=
  let inner := String.intercalate ", " (xs.map fun v =>
    match v with
    | .str s => "'" ++ s ++ "'"
    | w => pyStr w)
  if xs.length = 1 then "(" ++ inner ++ ",)" else "(" ++ inner ++ ")"

/-- `hasattr(x, 'shape')` plus the value of `x.shape` (the row count of a
`DataFrame` is not tracked by the model beyond the length of its first
column's cell dict). -/
def pyShape : PyVal → Option (List Nat)
  | .series vs _ => some [vs.length]
  | .frame cols => some [frameRows cols, cols.length]
  | .arr s _ => some s
  | _ => Option.none
where
  frameRows : PyDict → Nat
    | .nil => 0
    | .cons _ v _ =>
      match v with
      | .dict d => d.length
      | _ => 0

/-- `hasattr(x, 'values')` plus `list(x.values)`: a `Series` yields its
values, a `DataFrame` yields one ndarray per row (the model does not track
the rows' contents, only that every element is an ndarray, which is what
the comparisons can observe before raising). -/
def pyValuesList : PyVal → Option (List PyVal)
  | .series vs _ => some vs.toList
  | .frame cols => some ((PyDict.keys cols).map fun _ => .arr [cols.length] .none)
  | _ => Option.none

/-- `hasattr(x, 'dtype')` plus `str(x.dtype)`. -/
def pyDtype : PyVal → Option String
  | .series _ dt => some dt
  | .arr _ _ => some "ndarray-dtype"
  | _ => Option.none

/-- `hasattr(x, 'tolist')` plus `x.tolist()`. -/
def pyTolist : PyVal → Option PyVal
  | .arr _ flat => some flat
  | .series vs _ => some (.list vs)
  | _ => Option.none

/-- Rational subtraction spelled out on numerator/denominator pairs, so
that the numeric comparator evaluates by kernel reduction (the library's
`Rat.sub` is irreducible).  `ratSub_eq` identifies it with `a - b`. -/
def ratSub (a b : ℚ) : ℚ :=
  mkRat (a.num * b.den - b.num * a.den) (a.den * b.den)

/-- Rational absolute value spelled out on the numerator, for the same
reason.  `ratAbs_eq` identifies it with `|q|`. -/
def ratAbs (q : ℚ) : ℚ :=
  if q.num < 0 then mkRat (-q.num) q.den else q

theorem ratSub_eq (a b : ℚ) : ratSub a b = a - b := by
  have ha : ((a.den : ℚ)) ≠ 0 := Nat.cast_ne_zero.mpr a.den_nz
  have hb : ((b.den : ℚ)) ≠ 0 := Nat.cast_ne_zero.mpr b.den_nz
  have h1 : (a.num : ℚ) = a * a.den := (div_eq_iff ha).mp (Rat.num_div_den a)
  have h2 : (b.num : ℚ) = b * b.den := (div_eq_iff hb).mp (Rat.num_div_den b)
  unfold ratSub
  rw [Rat.mkRat_eq_div]
  push_cast
  rw [div_eq_iff (mul_ne_zero ha hb), h1, h2]
  ring

theorem ratAbs_eq (q : ℚ) : ratAbs q = |q| := by
  unfold ratAbs
  by_cases h : q.num < 0
  · have hq : q < 0 := by
      by_contra hq
      exact absurd (Rat.num_nonneg.mpr (not_lt.mp hq)) (not_le.mpr h)
    rw [if_pos h, abs_of_neg hq]
    calc mkRat (-q.num) q.den = mkRat (-q).num (-q).den := by
          rw [Rat.neg_num, Rat.neg_den]
      _ = -q := Rat.mkRat_self _
  · have hq : 0 ≤ q := Rat.num_nonneg.mp (not_lt.mp h)
    rw [if_neg h, abs_of_nonneg hq]

/-- One `{input, output}` test case of a `function` descriptor. -/
structure TestCase where
  input : PyVal
  output : PyVal

/-- An answer descriptor, i.e. one entry of `answers.json`: `answer` is
mandatory (the code indexes it as `correct_answer["answer"]`), the other
fields are read with `.get` and a default, which `Option` models. -/
structure Descriptor where
  type : Option String := Option.none
  answer : PyVal
  tolerance : Option ℚ := Option.none
  display_answer : Option PyVal := Option.none
  test_cases : Option (List TestCase) := Option.none

/-- The `{"match": ..., "feedback": ...}` dict returned by
`_compare_answers`. -/
structure CompareResult where
  matched : Bool
  feedback : String
deriving DecidableEq

/-- One iteration of the `function` comparator's loop: build the call from
the test case's `input` (positional unpacking for a list input, a single
argument otherwise). -/
def caseCall (env : PyEnv) (student_answer : PyVal) (tc : TestCase) :
    Except String PyVal :=
  match tc.input with
  | .list input_args => pyCall env student_answer input_args.toList
  | input_args => pyCall env student_answer [input_args]

/-- Whether one test case passes: the `try` body of the loop — the call and
the `==` against the expected output; any raise inside it makes the case
count as failed (`except: continue`). -/
def runCase (env : PyEnv) (student_answer : PyVal) (tc : TestCase) : Bool :=
  match caseCall env student_answer tc with
  | .error _ => false
  | .ok actual_output =>
    match pyEqE actual_output tc.output with
    | .error _ => false
    | .ok b => b

/-- The `exact` comparator (also the fallback when the descriptor carries
no `type` field, since `.get("type", "exact")` defaults to `"exact"`). -/
def compareExact (student_answer expected : PyVal) : Except String CompareResult :=
  match pyEqE student_answer expected with
  | .error e => .error e
  | .ok m =>
    .ok ⟨m, if m then "정답입니다! 🎉" else "틀렸습니다. 다시 시도해보세요."⟩

/-- The `numeric` comparator: inclusive tolerance on the absolute
difference; a non-numeric operand on either side is a mismatch with the
type-error message. -/
def compareNumeric (student_answer expected : PyVal) (tolerance : ℚ) :
    Except String CompareResult :=
  match student_answer, expected with
  | .num s, .num e =>
    let diff := ratAbs (ratSub s e)
    let m := decide (diff ≤ tolerance)
    .ok ⟨m, if m then "정답입니다! 🎉"
      else "근사값이 맞지 않습니다. (오차: " ++ fmt4 diff ++ ")"⟩
  | _, _ => .ok ⟨false, "숫자 형태의 답안이 필요합니다."⟩

/-- The `list` comparator: sort both copies with Python `sorted` and
compare with `==`; a non-list operand on either side is a mismatch. -/
def compareList (student_answer expected : PyVal) : Except String CompareResult :=
  match student_answer, expected with
  | .list s, .list e =>
    match sortedE s.toList with
    | .error err => .error err
    | .ok ss =>
      match sortedE e.toList with
      | .error err => .error err
      | .ok es =>
        match pyEqLE ss es with
        | .error err => .error err
        | .ok m =>
          .ok ⟨m, if m then "정답입니다! 🎉" else "리스트 내용이 일치하지 않습니다."⟩
  | _, _ => .ok ⟨false, "리스트 형태의 답안이 필요합니다."⟩

/-- The `dataframe` comparator: `student_answer.to_dict() == expected`. -/
def compareDataframe (student_answer expected : PyVal) : Except String CompareResult :=
  match student_answer, expected with
  | .frame cols, .dict d =>
    match pyEqE (.dict cols) (.dict d) with
    | .error err => .error err
    | .ok m =>
      .ok ⟨m, if m then "정답입니다! 🎉" else "DataFrame이 일치하지 않습니다."⟩
  | _, _ => .ok ⟨false, "DataFrame 형태의 답안이 필요합니다."⟩

/-- The `series_dtype` comparator: values and dtype label are checked
independently so the feedback can tell the two mismatches apart. -/
def compareSeriesDtype (student_answer expected : PyVal) :
    Except String CompareResult :=
  match pyDtype student_answer, pyValuesList student_answer with
  | some dt, some vs =>
    match pyIndexE expected "values" with
    | .error err => .error err
    | .ok expected_values =>
      match pyIndexE expected "dtype" with
      | .error err => .error err
      | .ok expected_dtype =>
        match pyEqE (.list (PyList.ofList vs)) expected_values with
        | .error err => .error err
        | .ok values_match =>
          match pyEqE (.str dt) expected_dtype with
          | .error err => .error err
          | .ok dtype_match =>
            let m := values_match && dtype_match
            .ok ⟨m, if m then "정답입니다! 🎉"
              else if !values_match then "Series의 값이 일치하지 않습니다."
              else "dtype이 일치하지 않습니다. 현재: " ++ dt ++ ", 기대값: " ++
                pyStr expected_dtype⟩
  | _, _ => .ok ⟨false, "Series 형태의 답안이 필요합니다."⟩

/-- The `series_values` comparator: like `series_dtype` but dtype-blind. -/
def compareSeriesValues (student_answer expected : PyVal) :
    Except String CompareResult :=
  match pyValuesList student_answer with
  | some vs =>
    match pyEqE (.list (PyList.ofList vs)) expected with
    | .error err => .error err
    | .ok m =>
      .ok ⟨m, if m then "정답입니다! 🎉" else "Series의 값이 일치하지 않습니다."⟩
  | Option.none => .ok ⟨false, "Series 형태의 답안이 필요합니다."⟩

/-- The `function` comparator: run every test case (a raising case counts
as failed and never aborts the loop) and match exactly when all passed. -/
def compareFunction (env : PyEnv) (student_answer : PyVal)
    (test_cases : List TestCase) : Except String CompareResult :=
  let total := test_cases.length
  let passed := test_cases.countP (runCase env student_answer)
  let m := passed == total
  .ok ⟨m, if m then "모든 테스트 케이스 통과! 🎉"
    else "테스트 케이스 " ++ toString passed ++ "/" ++ toString total ++
      " 통과 - 다시 확인해보세요!"⟩

/-- The `code_pattern` comparator: collect every missing required pattern
and every found forbidden pattern (both loops always run), match exactly
when both lists are empty, otherwise join the two report parts. -/
def compareCodePattern (student_answer expected : PyVal) :
    Except String CompareResult :=
  match student_answer with
  | .str code =>
    match pyGetD expected "required" (.list .nil) with
    | .error err => .error err
    | .ok requiredV =>
      match pyGetD expected "forbidden" (.list .nil) with
      | .error err => .error err
      | .ok forbiddenV =>
        match pyIterE requiredV with
        | .error err => .error err
        | .ok required_patterns =>
          match filterME (fun p =>
              match pyInStrE code p with
              | .error e => .error e
              | .ok c => .ok (!c)) required_patterns with
          | .error err => .error err
          | .ok missing_patterns =>
            match pyIterE forbiddenV with
            | .error err => .error err
            | .ok forbidden_patterns =>
              match filterME (pyInStrE code) forbidden_patterns with
              | .error err => .error err
              | .ok found_forbidden =>
                if missing_patterns.isEmpty && found_forbidden.isEmpty then
                  .ok ⟨true, "코드 패턴이 올바릅니다! 🎉"⟩
                else
                  match collectStrsE missing_patterns with
                  | .error err => .error err
                  | .ok missingStrs =>
                    match collectStrsE found_forbidden with
                    | .error err => .error err
                    | .ok foundStrs =>
                      let parts :=
                        (if missing_patterns.isEmpty then []
                         else ["누락된 패턴: " ++
                           String.intercalate ", " missingStrs]) ++
                        (if found_forbidden.isEmpty then []
                         else ["사용하면 안 되는 패턴: " ++
                           String.intercalate ", " foundStrs])
                      .ok ⟨false, String.intercalate " | " parts⟩
  | _ => .ok ⟨false, "코드를 문자열로 제출해주세요."⟩

/-- The `array_shape` comparator: `student.shape == tuple(expected)`. -/
def compareArrayShape (student_answer expected : PyVal) :
    Except String CompareResult :=
  match pyShape student_answer with
  | some shp =>
    match pyIterE expected with
    | .error err => .error err
    | .ok tup =>
      match pyEqLE (shp.map fun n => .num n) tup with
      | .error err => .error err
      | .ok m =>
        .ok ⟨m, if m then "정답입니다! 🎉"
          else "배열 형태가 틀렸습니다. 현재: " ++ tupleStr shp ++
            ", 기대값: " ++ pyTupleStr tup⟩
  | Option.none => .ok ⟨false, "numpy 배열이 필요합니다."⟩

/-- The `array_values` comparator: `student.tolist() == expected`. -/
def compareArrayValues (student_answer expected : PyVal) :
    Except String CompareResult :=
  match pyTolist student_answer with
  | some student_list =>
    match pyEqE student_list expected with
    | .error err => .error err
    | .ok m =>
      .ok ⟨m, if m then "정답입니다! 🎉" else "배열의 값이 일치하지 않습니다."⟩
  | Option.none => .ok ⟨false, "numpy 배열이 필요합니다."⟩

/-- The body of `AutoGrader._compare_answers`, i.e. everything inside its
`try`: the `elif` dispatch on `answer_type` into the comparator library.
An `Except.error` is a Python exception escaping the comparator into the
enclosing broad `except`. -/
def compareBody (env : PyEnv) (student_answer : PyVal)
    (correct_answer : Descriptor) : Except String CompareResult :=
  let answer_type := correct_answer.type.getD "exact"
  let expected := correct_answer.answer
  let tolerance := correct_answer.tolerance.getD 0
  if answer_type = "exact" then
    compareExact student_answer expected
  else if answer_type = "numeric" then
    compareNumeric student_answer expected tolerance
  else if answer_type = "list" then
    compareList student_answer expected
  else if answer_type = "dataframe" then
    compareDataframe student_answer expected
  else if answer_type = "series_dtype" then
    compareSeriesDtype student_answer expected
  else if answer_type = "series_values" then
    compareSeriesValues student_answer expected
  else if answer_type = "function" then
    compareFunction env student_answer (correct_answer.test_cases.getD [])
  else if answer_type = "code_pattern" then
    compareCodePattern student_answer expected
  else if answer_type = "array_shape" then
    compareArrayShape student_answer expected
  else if answer_type = "array_values" then
    compareArrayValues student_answer expected
  else
    .ok ⟨false, "지원하지 않는 답안 타입입니다."⟩

/-- `AutoGrader._compare_answers`: the `try`/`except` wrapper around
`compareBody` — any exception from the comparator becomes a non-matching
result with the error text interpolated into the feedback. -/
def compareAnswers (env : PyEnv) (student_answer : PyVal)
    (correct_answer : Descriptor) : CompareResult :=
  match compareBody env student_answer correct_answer with
  | .ok r => r
  | .error e => ⟨false, "채점 중 오류가 발생했습니다: " ++ e⟩

/-- The result of `AutoGrader.check_answer`: either the lookup-error dict
`{"status": "error", "message": ...}` or the verdict dict. -/
inductive CheckResult : Type where
  | lookupError (message : String) : CheckResult
  | verdict (problem_id : String) (correct : Bool) (feedback : String)
      (expected : PyVal) (student_answer : PyVal) : CheckResult

/-- `AutoGrader.check_answer`, with the descriptor map passed directly (the
network fetch that produces it is outside the verification core). -/
def checkAnswer (env : PyEnv) (problem_id : String) (student_answer : PyVal)
    (answers : List (String × Descriptor)) : CheckResult :=
  match answers.lookup problem_id with
  | Option.none => .lookupError ("문제 " ++ problem_id ++ "를 찾을 수 없습니다.")
  | some correct_answer =>
    let result := compareAnswers env student_answer correct_answer
    .verdict problem_id result.matched result.feedback
      (correct_answer.display_answer.getD (.str "정답 비공개")) student_answer

def CheckResult.isVerdict : CheckResult → Bool
  | .verdict _ _ _ _ _ => true
  | .lookupError _ => false

/-- The `correct` field of a verdict (`Option.none` for a lookup error,
which carries no matched flag at all). -/
def CheckResult.correctField : CheckResult → Option Bool
  | .verdict _ c _ _ _ => some c
  | .lookupError _ => Option.none

/-- The `expected` field of a verdict. -/
def CheckResult.expectedField : CheckResult → Option PyVal
  | .verdict _ _ _ e _ => some e
  | .lookupError _ => Option.none

/-- The display gate of `submit_answer` (line
`if not result['correct'] and result['expected'] != "정답 비공개"`):
whether the reference line that surfaces the display answer is printed. -/
def referenceShown (correct : Bool) (expected : PyVal) : Except String Bool :=
  if correct then .ok false
  else
    match pyEqE expected (.str "정답 비공개") with
    | .error e => .error e
    | .ok eq => .ok (!eq)

/-! ### Bridge lemmas: the fallible sort on number lists agrees with
`List.insertionSort`, and equality of the sorted copies is multiset
equality. -/

theorem pyLt_num (a b : ℚ) : pyLt (.num a) (.num b) = .ok (decide (a < b)) := rfl

theorem pyEqE_num (a b : ℚ) : pyEqE (.num a) (.num b) = .ok (a == b) := rfl

theorem insertE_map_num (x : ℚ) (l : List ℚ) (hl : l.Sorted (· ≤ ·)) :
    insertE (.num x) (l.map PyVal.num) =
      .ok ((List.orderedInsert (· ≤ ·) x l).map PyVal.num) := by
  induction l with
  | nil => simp [insertE, List.orderedInsert]
  | cons y ys ih =>
    by_cases hxy : x < y
    · simp [insertE, pyLt_num, hxy, List.orderedInsert, le_of_lt hxy]
    · have hyx : y ≤ x := le_of_not_lt hxy
      have hys : ys.Sorted (· ≤ ·) := (List.sorted_cons.mp hl).2
      by_cases hxey : x ≤ y
      · have hx : x = y := le_antisymm hxey hyx
        subst hx
        have hord : List.orderedInsert (· ≤ ·) x ys = x :: ys := by
          cases ys with
          | nil => simp [List.orderedInsert]
          | cons z zs =>
            have hxz : x ≤ z := (List.sorted_cons.mp hl).1 z (by simp)
            simp [List.orderedInsert, hxz]
        simp [insertE, pyLt_num, hxy, ih hys, List.orderedInsert, hxey, hord]
      · simp [insertE, pyLt_num, hxy, ih hys, List.orderedInsert, hxey]

theorem sortedE_map_num (l : List ℚ) :
    sortedE (l.map PyVal.num) =
      .ok ((List.insertionSort (· ≤ ·) l).map PyVal.num) := by
  induction l with
  | nil => simp [sortedE]
  | cons x xs ih =>
    rw [List.map_cons, sortedE, ih]
    simpa [List.insertionSort] using
      insertE_map_num x _ (List.sorted_insertionSort (· ≤ ·) xs)

theorem pyEqLEAux_map_num (a b : List ℚ) (h : a.length = b.length) :
    pyEqLE.pyEqLEAux (a.map PyVal.num) (b.map PyVal.num) =
      .ok (decide (a = b)) := by
  induction a generalizing b with
  | nil =>
    cases b with
    | nil => simp [pyEqLE.pyEqLEAux]
    | cons y ys => simp at h
  | cons x xs ih =>
    cases b with
    | nil => simp at h
    | cons y ys =>
      have hlen : xs.length = ys.length := by simpa using h
      by_cases hxy : x = y
      · subst hxy
        simp [pyEqLE.pyEqLEAux, pyEqE_num, ih ys hlen]
      · have hb : (x == y) = false := beq_eq_false_iff_ne.mpr hxy
        simp [pyEqLE.pyEqLEAux, pyEqE_num, hb, hxy]

theorem pyEqLE_map_num (a b : List ℚ) :
    pyEqLE (a.map PyVal.num) (b.map PyVal.num) = .ok (decide (a = b)) := by
  by_cases h : a.length = b.length
  · rw [pyEqLE, if_pos (by simpa using h), pyEqLEAux_map_num a b h]
  · rw [pyEqLE, if_neg (by simpa using h)]
    have : a ≠ b := fun hab => h (hab ▸ rfl)
    simp [this]

theorem insertionSort_eq_iff_perm (a b : List ℚ) :
    List.insertionSort (· ≤ ·) a = List.insertionSort (· ≤ ·) b ↔ a.Perm b := by
  constructor
  · intro h
    exact ((List.perm_insertionSort (· ≤ ·) a).symm.trans
      (h ▸ List.perm_insertionSort (· ≤ ·) b))
  · intro h
    exact List.eq_of_perm_of_sorted
      ((List.perm_insertionSort (· ≤ ·) a).trans
        (h.trans (List.perm_insertionSort (· ≤ ·) b).symm))
      (List.sorted_insertionSort (· ≤ ·) a)
      (List.sorted_insertionSort (· ≤ ·) b)

/-- A callable environment with no registered callables: every invocation
raises. -/
def trivialEnv : PyEnv := fun _ _ => .error "no function registered"

/-! ### Claims -/

/-- C1: any failure raised inside the selected comparator (the whole
dispatch body, including a `TypeError` from sorting mutually unorderable
list elements) is caught by the broad `except` of `_compare_answers` and
converted into a non-matching result whose feedback interpolates the error
text; and a failure raised by invoking the submitted callable on one test
case is caught by the per-case `except`, the case merely counting as
failed.  No exception escapes `check_answer` except the explicit
lookup-error status, which the totality of `checkAnswer` makes intrinsic
to the model. -/
theorem claim1_failure_containment (env : PyEnv) (s : PyVal) (d : Descriptor) :
    (∀ e, compareBody env s d = .error e →
      compareAnswers env s d = ⟨false, "채점 중 오류가 발생했습니다: " ++ e⟩)
    ∧ (∀ tc e, caseCall env s tc = .error e → runCase env s tc = false)
    ∧ (∀ T tc, d.type = some "function" → d.test_cases = some T →
        tc ∈ T → runCase env s tc = false →
        (compareAnswers env s d).matched = false) := by
  refine ⟨?_, ?_, ?_⟩
  · intro e he
    simp [compareAnswers, he]
  · intro tc e he
    simp [runCase, he]
  · intro T tc hty htc hmem hrc
    simp only [compareAnswers, compareBody, hty, htc, compareFunction]
    simp only [Option.getD_some]
    have hne : T.countP (runCase env s) ≠ T.length := fun hc =>
      absurd (List.countP_eq_length.mp hc tc hmem) (by simp [hrc])
    simp [hne]

def descFuncOne : Descriptor :=
  { type := some "function", answer := .none,
    test_cases := some [⟨.num 0, .num 0⟩] }

theorem claim1_witness :
    compareAnswers trivialEnv (.list (PyList.ofList [.num 1, .str "a"]))
        { type := some "list", answer := .list (PyList.ofList [.num 1]) } =
      ⟨false, "채점 중 오류가 발생했습니다: '<' not supported between instances of 'number' and 'str'"⟩
    ∧ runCase trivialEnv (.str "not a function") ⟨.num 0, .num 0⟩ = false
    ∧ (compareAnswers trivialEnv (.str "not a function") descFuncOne).matched = false := by
  refine ⟨?_, ?_, ?_⟩
  · exact (claim1_failure_containment trivialEnv _ _).1 _ rfl
  · exact (claim1_failure_containment trivialEnv (.str "not a function")
      { answer := .none }).2.1 ⟨.num 0, .num 0⟩
      "'str' object is not callable" rfl
  · exact (claim1_failure_containment trivialEnv (.str "not a function")
      descFuncOne).2.2 [⟨.num 0, .num 0⟩] ⟨.num 0, .num 0⟩ rfl rfl
      (by simp) rfl

/-- C2: a `problemId` missing from the descriptor map produces the distinct
lookup-error status whose message embeds the missing id; the result is not
a verdict and carries no `matched`/`correct` field. -/
theorem claim2_lookup_error (env : PyEnv) (problem_id : String) (s : PyVal)
    (answers : List (String × Descriptor))
    (h : answers.lookup problem_id = Option.none) :
    checkAnswer env problem_id s answers =
      .lookupError ("문제 " ++ problem_id ++ "를 찾을 수 없습니다.")
    ∧ (checkAnswer env problem_id s answers).isVerdict = false
    ∧ (checkAnswer env problem_id s answers).correctField = Option.none := by
  refine ⟨?_, ?_, ?_⟩ <;>
    simp [checkAnswer, h, CheckResult.isVerdict, CheckResult.correctField]

theorem claim2_witness :
    checkAnswer trivialEnv "problem_9" (.num 1) [] =
      .lookupError ("문제 " ++ "problem_9" ++ "를 찾을 수 없습니다.")
    ∧ (checkAnswer trivialEnv "problem_9" (.num 1) []).isVerdict = false
    ∧ (checkAnswer trivialEnv "problem_9" (.num 1) []).correctField = Option.none :=
  claim2_lookup_error trivialEnv "problem_9" (.num 1) [] rfl

/-- C3: for a `numeric` descriptor with numeric expected value and
non-negative tolerance, a numeric submission matches exactly when the
absolute difference is at most the tolerance (inclusive boundary), and a
non-numeric submission yields a non-match with the type-error message. -/
theorem claim3_numeric_tolerance (env : PyEnv) (d : Descriptor) (e t : ℚ)
    (hty : d.type = some "numeric") (ha : d.answer = .num e)
    (htol : d.tolerance.getD 0 = t) (hnn : 0 ≤ t) :
    (∀ q : ℚ, (compareAnswers env (.num q) d).matched = decide (|q - e| ≤ t))
    ∧ (∀ s : PyVal, (∀ q, s ≠ .num q) →
        compareAnswers env s d = ⟨false, "숫자 형태의 답안이 필요합니다."⟩) := by
  constructor
  · intro q
    simp [compareAnswers, compareBody, hty, ha, htol, compareNumeric,
      ratSub_eq, ratAbs_eq]
  · intro s hs
    cases s with
    | num q => exact absurd rfl (hs q)
    | _ => simp [compareAnswers, compareBody, hty, ha, htol, compareNumeric]

def descNumeric : Descriptor :=
  { type := some "numeric", answer := .num 10, tolerance := some (mkRat 1 2) }

theorem claim3_witness :
    (compareAnswers trivialEnv (.num (mkRat 21 2)) descNumeric).matched = true
    ∧ (compareAnswers trivialEnv (.num (mkRat 1051 100)) descNumeric).matched = false
    ∧ compareAnswers trivialEnv (.str "ten") descNumeric =
        ⟨false, "숫자 형태의 답안이 필요합니다."⟩ := by
  have h := claim3_numeric_tolerance trivialEnv descNumeric 10 (mkRat 1 2)
    rfl rfl rfl (by decide)
  refine ⟨?_, ?_, ?_⟩
  · rw [h.1 (mkRat 21 2), ← ratSub_eq, ← ratAbs_eq]
    decide
  · rw [h.1 (mkRat 1051 100), ← ratSub_eq, ← ratAbs_eq]
    decide
  · exact h.2 (.str "ten") (fun q => by simp)

/-- C4: for a `list` descriptor whose expected value is a list of numbers,
a submitted list of numbers matches exactly when the two lists are equal
as multisets (equality of the sorted copies); in particular every
permutation of the expected list matches; and a non-list submission yields
a non-match with the type-error message. -/
theorem claim4_list_multiset (env : PyEnv) (d : Descriptor) (es : List ℚ)
    (hty : d.type = some "list")
    (ha : d.answer = .list (PyList.ofList (es.map PyVal.num))) :
    (∀ qs : List ℚ,
      ((compareAnswers env (.list (PyList.ofList (qs.map PyVal.num))) d).matched = true
        ↔ (qs : Multiset ℚ) = (es : Multiset ℚ)))
    ∧ (∀ qs : List ℚ, qs.Perm es →
        (compareAnswers env (.list (PyList.ofList (qs.map PyVal.num))) d).matched = true)
    ∧ (∀ s : PyVal, (∀ l, s ≠ .list l) →
        compareAnswers env s d = ⟨false, "리스트 형태의 답안이 필요합니다."⟩) := by
  have key : ∀ qs : List ℚ,
      (compareAnswers env (.list (PyList.ofList (qs.map PyVal.num))) d).matched =
        decide (List.insertionSort (· ≤ ·) qs = List.insertionSort (· ≤ ·) es) := by
    intro qs
    simp [compareAnswers, compareBody, hty, ha, compareList,
      sortedE_map_num, pyEqLE_map_num]
  refine ⟨?_, ?_, ?_⟩
  · intro qs
    rw [key qs, decide_eq_true_eq, insertionSort_eq_iff_perm, Multiset.coe_eq_coe]
  · intro qs hperm
    rw [key qs, decide_eq_true_eq, insertionSort_eq_iff_perm]
    exact hperm
  · intro s hs
    cases s with
    | list l => exact absurd rfl (hs l)
    | _ => simp [compareAnswers, compareBody, hty, ha, compareList]

def descList : Descriptor :=
  { type := some "list", answer := .list (PyList.ofList [.num 1, .num 2, .num 3]) }

theorem claim4_witness :
    (compareAnswers trivialEnv
        (.list (PyList.ofList [.num 3, .num 1, .num 2])) descList).matched = true
    ∧ (compareAnswers trivialEnv
        (.list (PyList.ofList [.num 1, .num 2, .num 2])) descList).matched = false
    ∧ compareAnswers trivialEnv (.num 5) descList =
        ⟨false, "리스트 형태의 답안이 필요합니다."⟩ := by
  have h := claim4_list_multiset trivialEnv descList [1, 2, 3] rfl rfl
  refine ⟨?_, ?_, ?_⟩
  · exact (h.1 [3, 1, 2]).mpr (by decide)
  · cases hm : (compareAnswers trivialEnv
        (.list (PyList.ofList [.num 1, .num 2, .num 2])) descList).matched with
    | false => rfl
    | true => exact absurd ((h.1 [1, 2, 2]).mp hm) (by decide)
  · exact h.2.2 (.num 5) (fun l => by simp)

/-- C5: for a `function` descriptor with test case list `T`, each case
invokes the submission with positionally-unpacked arguments when its input
is a list and with the single input value otherwise; a case passes exactly
when the invocation succeeds with a value equal to the case's output; a
raising invocation merely fails that case; the verdict matches exactly
when every case passes, and the mismatch feedback reports
passed-count/total. -/
theorem claim5_function_harness (env : PyEnv) (s : PyVal) (d : Descriptor)
    (T : List TestCase) (hty : d.type = some "function")
    (htc : d.test_cases = some T) :
    ((compareAnswers env s d).matched = true ↔ ∀ tc ∈ T, runCase env s tc = true)
    ∧ (∀ tc : TestCase, runCase env s tc = true ↔
        ∃ out, caseCall env s tc = .ok out ∧ pyEqE out tc.output = .ok true)
    ∧ (∀ tc : TestCase, ∀ args : PyList, tc.input = .list args →
        caseCall env s tc = pyCall env s args.toList)
    ∧ (∀ tc : TestCase, (∀ args, tc.input ≠ .list args) →
        caseCall env s tc = pyCall env s [tc.input])
    ∧ ((compareAnswers env s d).matched = false →
        (compareAnswers env s d).feedback =
          "테스트 케이스 " ++ toString (T.countP (runCase env s)) ++ "/" ++
            toString T.length ++ " 통과 - 다시 확인해보세요!") := by
  refine ⟨?_, ?_, ?_, ?_, ?_⟩
  · simp only [compareAnswers, compareBody, hty, htc, compareFunction]
    simp [List.countP_eq_length]
  · intro tc
    unfold runCase
    cases hcc : caseCall env s tc with
    | error e => simp
    | ok out =>
      cases hpe : pyEqE out tc.output with
      | error e => simp [hpe]
      | ok b => simp [hpe]
  · intro tc args h
    unfold caseCall
    rw [h]
  · intro tc h
    unfold caseCall
    cases hi : tc.input with
    | list args => exact absurd hi (h args)
    | _ => simp [hi]
  · intro hm
    simp only [compareAnswers, compareBody, hty, htc, compareFunction] at hm ⊢
    simp at hm
    simp [hm]

/-- A submitted callable that behaves like the spec's add function on the
two test inputs. -/
def addLikeEnv : PyEnv := fun _ args =>
  match args with
  | [.num a, .num b] =>
    if a == 2 && b == 3 then .ok (.num 5)
    else if a == 0 && b == 0 then .ok (.num 0)
    else .error "unexpected arguments"
  | _ => .error "unexpected arguments"

/-- A submitted callable that raises on the second test input. -/
def flakyEnv : PyEnv := fun _ args =>
  match args with
  | [.num a, .num b] =>
    if a == 2 && b == 3 then .ok (.num 5)
    else .error "ValueError: negative input"
  | _ => .error "unexpected arguments"

def descFunc2 : Descriptor :=
  { type := some "function", answer := .none,
    test_cases := some
      [⟨.list (PyList.ofList [.num 2, .num 3]), .num 5⟩,
       ⟨.list (PyList.ofList [.num 0, .num 0]), .num 0⟩] }

theorem claim5_witness :
    (compareAnswers addLikeEnv (.func 0) descFunc2).matched = true
    ∧ (compareAnswers flakyEnv (.func 0) descFunc2).matched = false
    ∧ (compareAnswers flakyEnv (.func 0) descFunc2).feedback =
        "테스트 케이스 1/2 통과 - 다시 확인해보세요!" := by
  refine ⟨?_, ?_, ?_⟩
  · exact (claim5_function_harness addLikeEnv (.func 0) descFunc2 _
      rfl rfl).1.mpr (by decide)
  · decide
  · have h := (claim5_function_harness flakyEnv (.func 0) descFunc2 _
      rfl rfl).2.2.2.2 (by decide)
    rw [h]
    rfl

/-- C9: a `function` descriptor whose test case list is empty or absent
matches every submission — including values that are not callable — with
the all-tests-passed feedback. -/
theorem claim9_empty_function_cases (env : PyEnv) (d : Descriptor)
    (hty : d.type = some "function")
    (htc : d.test_cases = Option.none ∨ d.test_cases = some []) :
    ∀ s : PyVal, compareAnswers env s d = ⟨true, "모든 테스트 케이스 통과! 🎉"⟩ := by
  intro s
  cases htc with
  | inl h => simp [compareAnswers, compareBody, hty, h, compareFunction]
  | inr h => simp [compareAnswers, compareBody, hty, h, compareFunction]

def descFuncEmpty : Descriptor := { type := some "function", answer := .none }

theorem claim9_witness :
    compareAnswers trivialEnv (.str "not callable") descFuncEmpty =
      ⟨true, "모든 테스트 케이스 통과! 🎉"⟩ :=
  claim9_empty_function_cases trivialEnv descFuncEmpty rfl (Or.inl rfl)
    (.str "not callable")

theorem filterME_missing (code : String) (R : List String) :
    filterME (fun p =>
        match pyInStrE code p with
        | .error e => .error e
        | .ok c => .ok (!c)) (R.map PyVal.str) =
      .ok ((R.filter fun p => !strContains code p).map PyVal.str) := by
  induction R with
  | nil => rfl
  | cons r rs ih =>
    simp only [List.map_cons, filterME]
    have hred : pyInStrE code (PyVal.str r) = .ok (strContains code r) := rfl
    rw [hred, ih]
    cases h : strContains code r <;> simp [List.filter_cons, h]

theorem filterME_found (code : String) (F : List String) :
    filterME (pyInStrE code) (F.map PyVal.str) =
      .ok ((F.filter fun p => strContains code p).map PyVal.str) := by
  induction F with
  | nil => rfl
  | cons f fs ih =>
    simp only [List.map_cons, filterME]
    have hred : pyInStrE code (PyVal.str f) = .ok (strContains code f) := rfl
    rw [hred, ih]
    cases h : strContains code f <;> simp [List.filter_cons, h]

theorem collectStrsE_map (L : List String) :
    collectStrsE (L.map PyVal.str) = .ok L := by
  induction L with
  | nil => rfl
  | cons x xs ih => simp [collectStrsE, ih]

/-- C6: for a `code_pattern` descriptor whose `required`/`forbidden`
entries are lists of strings, a string submission matches exactly when
every required pattern occurs as a substring and no forbidden pattern
does; on a mismatch the feedback lists all missing required patterns and
all found forbidden patterns (both checks are evaluated, neither
short-circuits the other); a non-string submission is a mismatch with the
submit-a-string message. -/
theorem claim6_code_pattern (env : PyEnv) (d : Descriptor) (R F : List String)
    (hty : d.type = some "code_pattern")
    (hreq : pyGetD d.answer "required" (.list .nil) =
      .ok (.list (PyList.ofList (R.map PyVal.str))))
    (hforb : pyGetD d.answer "forbidden" (.list .nil) =
      .ok (.list (PyList.ofList (F.map PyVal.str)))) :
    (∀ code : String,
      ((compareAnswers env (.str code) d).matched = true ↔
        (∀ r ∈ R, strContains code r = true) ∧
          (∀ f ∈ F, strContains code f = false)))
    ∧ (∀ code : String, (compareAnswers env (.str code) d).matched = false →
        (compareAnswers env (.str code) d).feedback =
          String.intercalate " | "
            ((if (R.filter fun p => !strContains code p) = [] then []
              else ["누락된 패턴: " ++ String.intercalate ", "
                (R.filter fun p => !strContains code p)]) ++
             (if (F.filter fun p => strContains code p) = [] then []
              else ["사용하면 안 되는 패턴: " ++ String.intercalate ", "
                (F.filter fun p => strContains code p)])))
    ∧ (∀ s : PyVal, (∀ t, s ≠ .str t) →
        compareAnswers env s d = ⟨false, "코드를 문자열로 제출해주세요."⟩) := by
  have key : ∀ code : String,
      compareAnswers env (.str code) d =
        (if (R.filter fun p => !strContains code p) = [] ∧
            (F.filter fun p => strContains code p) = [] then
          ⟨true, "코드 패턴이 올바릅니다! 🎉"⟩
        else
          ⟨false, String.intercalate " | "
            ((if (R.filter fun p => !strContains code p) = [] then []
              else ["누락된 패턴: " ++ String.intercalate ", "
                (R.filter fun p => !strContains code p)]) ++
             (if (F.filter fun p => strContains code p) = [] then []
              else ["사용하면 안 되는 패턴: " ++ String.intercalate ", "
                (F.filter fun p => strContains code p)]))⟩) := by
    intro code
    simp only [compareAnswers, compareBody, hty, compareCodePattern, hreq,
      hforb, pyIterE, PyList.toList_ofList, filterME_missing, filterME_found,
      collectStrsE_map]
    by_cases hR : (R.filter fun p => !strContains code p) = [] <;>
      by_cases hF : (F.filter fun p => strContains code p) = [] <;>
        simp [hR, hF, List.isEmpty_iff, List.map_eq_nil_iff]
  refine ⟨?_, ?_, ?_⟩
  · intro code
    rw [key code]
    constructor
    · intro hmt
      by_cases hc : (R.filter fun p => !strContains code p) = [] ∧
          (F.filter fun p => strContains code p) = []
      · refine ⟨fun r hr => ?_, fun f hf => ?_⟩
        · simpa using List.filter_eq_nil_iff.mp hc.1 r hr
        · simpa using List.filter_eq_nil_iff.mp hc.2 f hf
      · rw [if_neg hc] at hmt
        simp at hmt
    · intro hall
      have hR : (R.filter fun p => !strContains code p) = [] :=
        List.filter_eq_nil_iff.mpr (fun a ha => by simp [hall.1 a ha])
      have hF : (F.filter fun p => strContains code p) = [] :=
        List.filter_eq_nil_iff.mpr (fun a ha => by simp [hall.2 a ha])
      rw [if_pos ⟨hR, hF⟩]
  · intro code hm
    rw [key code] at hm ⊢
    by_cases hc : (R.filter fun p => !strContains code p) = [] ∧
        (F.filter fun p => strContains code p) = []
    · rw [if_pos hc] at hm
      simp at hm
    · rw [if_neg hc] at hm ⊢
  · intro s hs
    cases s with
    | str t => exact absurd rfl (hs t)
    | _ => simp [compareAnswers, compareBody, hty, compareCodePattern]

def descPattern : Descriptor :=
  { type := some "code_pattern",
    answer := .dict (.cons "required" (.list (.cons (.str "plot(") .nil))
      (.cons "forbidden" (.list (.cons (.str "show(") .nil)) .nil)) }

theorem claim6_witness :
    (compareAnswers trivialEnv (.str "plt.plot(x); plt.show()")
        descPattern).matched = false
    ∧ (compareAnswers trivialEnv (.str "plt.plot(x); plt.show()")
        descPattern).feedback = "사용하면 안 되는 패턴: show("
    ∧ compareAnswers trivialEnv (.num 3) descPattern =
        ⟨false, "코드를 문자열로 제출해주세요."⟩ := by
  have h := claim6_code_pattern trivialEnv descPattern ["plot("] ["show("]
    rfl rfl rfl
  refine ⟨?_, ?_, ?_⟩
  · cases hm : (compareAnswers trivialEnv (.str "plt.plot(x); plt.show()")
        descPattern).matched with
    | false => rfl
    | true =>
      have := (h.1 "plt.plot(x); plt.show()").mp hm
      exact absurd (this.2 "show(" (by simp)) (by decide)
  · have hfb := h.2.1 "plt.plot(x); plt.show()" (by decide)
    rw [hfb]
    rfl
  · exact h.2.2 (.num 3) (fun t => by simp)

def descSecret : Descriptor :=
  { type := some "exact", answer := .num 1,
    display_answer := some (.str "비밀 정답") }

def answersSecret : List (String × Descriptor) := [("p1", descSecret)]

/-- C7 counterexample: `check_answer` puts `display_answer` into the
verdict's `expected` field unconditionally.  With a correct submission the
returned verdict still carries the non-sentinel display answer, so the
claim that a matched verdict never exposes the display answer is false. -/
theorem claim7_counterexample :
    (checkAnswer trivialEnv "p1" (.num 1) answersSecret).correctField = some true
    ∧ (checkAnswer trivialEnv "p1" (.num 1) answersSecret).expectedField =
        some (.str "비밀 정답")
    ∧ PyVal.str "비밀 정답" ≠ PyVal.str "정답 비공개" := by
  refine ⟨rfl, rfl, ?_⟩
  intro h
  injection h with h2
  exact absurd h2 (by decide)

/-- C7 amended: the verdict returned by `check_answer` always carries the
descriptor's `display_answer` (defaulting to the hidden sentinel) in its
`expected` field, whatever `matched` is; the gating on `matched = false`
and on the sentinel only governs `submit_answer`'s printed reference line,
which is shown exactly when the verdict is a mismatch and the display
answer is not the sentinel. -/
theorem claim7_display_gate (env : PyEnv) (pid : String) (s : PyVal)
    (answers : List (String × Descriptor)) (d : Descriptor)
    (h : answers.lookup pid = some d) :
    (checkAnswer env pid s answers).expectedField =
      some (d.display_answer.getD (.str "정답 비공개"))
    ∧ (∀ c : Bool, ∀ e : PyVal, referenceShown c e = .ok true →
        c = false ∧ e ≠ .str "정답 비공개") := by
  constructor
  · simp [checkAnswer, h, CheckResult.expectedField]
  · intro c e hce
    cases c with
    | true => simp [referenceShown] at hce
    | false =>
      refine ⟨rfl, ?_⟩
      intro he
      subst he
      simp [referenceShown, pyEqE] at hce

theorem claim7_witness :
    (checkAnswer trivialEnv "p1" (.num 2) answersSecret).expectedField =
      some (.str "비밀 정답")
    ∧ (false = false ∧ PyVal.str "비밀 정답" ≠ PyVal.str "정답 비공개") := by
  have h := claim7_display_gate trivialEnv "p1" (.num 2) answersSecret
    descSecret rfl
  exact ⟨h.1, h.2 false (.str "비밀 정답") rfl⟩

/-- C8: the comparison is a pure function of the problem id, the submitted
value, the descriptor map and the behaviour of the submitted callables:
two calls with identical arguments return identical results, and the
result depends on a submitted callable only through its input-output
behaviour (the callable's own side effects live outside the model). -/
theorem claim8_deterministic (env env' : PyEnv) (problem_id : String)
    (s : PyVal) (answers : List (String × Descriptor))
    (henv : ∀ i args, env i args = env' i args) :
    checkAnswer env problem_id s answers = checkAnswer env' problem_id s answers
    ∧ checkAnswer env problem_id s answers = checkAnswer env problem_id s answers := by
  have he : env = env' := funext fun i => funext fun args => henv i args
  subst he
  exact ⟨rfl, rfl⟩

theorem claim8_witness :
    checkAnswer trivialEnv "p1" PyVal.none answersSecret =
      checkAnswer trivialEnv "p1" PyVal.none answersSecret
    ∧ checkAnswer trivialEnv "p1" PyVal.none answersSecret =
      checkAnswer trivialEnv "p1" PyVal.none answersSecret :=
  claim8_deterministic trivialEnv trivialEnv "p1" PyVal.none answersSecret
    (fun _ _ => rfl)

/-- C10: a descriptor with no `type` field is graded exactly like a
`type = "exact"` descriptor — the unsupported-answer-type verdict is not
produced; the submission matches precisely when it is value-equal to the
descriptor's `answer` payload. -/
theorem claim10_default_exact (env : PyEnv) (s : PyVal) (d : Descriptor)
    (hty : d.type = Option.none) :
    compareAnswers env s d = compareAnswers env s { d with type := some "exact" }
    ∧ (∀ b, pyEqE s d.answer = .ok b →
        (compareAnswers env s d).matched = b
        ∧ (compareAnswers env s d).feedback ≠ "지원하지 않는 답안 타입입니다.") := by
  obtain ⟨ty, ans, tol, disp, tcs⟩ := d
  simp only at hty
  subst hty
  constructor
  · rfl
  · intro b hb
    simp only at hb
    constructor
    · simp [compareAnswers, compareBody, compareExact, hb]
    · cases b with
      | true =>
        simp [compareAnswers, compareBody, compareExact, hb]
      | false =>
        simp [compareAnswers, compareBody, compareExact, hb]

def descNoType : Descriptor := { answer := .str "hello" }

theorem claim10_witness :
    compareAnswers trivialEnv (.str "hello") descNoType =
      compareAnswers trivialEnv (.str "hello")
        { descNoType with type := some "exact" }
    ∧ (compareAnswers trivialEnv (.str "hello") descNoType).matched = true
    ∧ (compareAnswers trivialEnv (.str "hello") descNoType).feedback ≠
        "지원하지 않는 답안 타입입니다." := by
  have h := claim10_default_exact trivialEnv (.str "hello") descNoType rfl
  exact ⟨h.1, (h.2 true rfl).1, (h.2 true rfl).2⟩
